import Mathlib

/-!
Shallow embedding of the extraction/locator core of the `llm_link`
repository (files `src/backend/llm_extractor.py` and
`src/backend/pdf_processor.py`), together with theorems checking the
natural-language specification against it.

Python strings are modelled as `List Char` (sequences of code points, as
Python 3 `str` is); `\d` is modelled as the ASCII digits; numeric bbox
coordinates are modelled as `ℚ`.  Positions are pairs of `ℚ`.
-/

/-- A character is a digit in the sense of the `\d` character class
(ASCII range, which is what every input in this development uses). -/
def isDig (c : Char) : Bool := '0' ≤ c && c ≤ '9'

/-- Model of Python `str.strip()`: drop whitespace from both ends. -/
def pyStrip (l : List Char) : List Char :=
  ((l.dropWhile Char.isWhitespace).reverse.dropWhile Char.isWhitespace).reverse

/-- Model of Python `str.lower()` (code-point-wise lowercasing). -/
def pyLower (l : List Char) : List Char := l.map Char.toLower

/-- Model of Python's substring test `needle in hay`. -/
def pyIn (needle : List Char) : List Char → Bool
  | [] => needle.isEmpty
  | c :: t => needle.isPrefixOf (c :: t) || pyIn needle t

/-- Bounding box of a text span, from `pdf_processor.py` (`bbox` dict with
keys x0, y0, x1, y1). -/
structure BBox where
  x0 : ℚ
  y0 : ℚ
  x1 : ℚ
  y1 : ℚ
deriving DecidableEq, Repr

/-- One text span with position and font metadata, from
`pdf_processor.extract_text_with_positions` (`text_info` dict). -/
structure TextBlock where
  text : List Char
  bbox : BBox
  font_size : ℚ
  font_name : List Char
  flags : Nat
deriving DecidableEq, Repr

/-- One page's data, from `pdf_processor.extract_text_with_positions`
(`page_info` dict): 1-based page number, page size, ordered spans and the
joined full text. -/
structure PageData where
  page_number : Nat
  page_width : ℚ
  page_height : ℚ
  text_blocks : List TextBlock
  full_text : List Char
deriving DecidableEq, Repr

instance : Inhabited PageData :=
  ⟨{ page_number := 0, page_width := 0, page_height := 0,
     text_blocks := [], full_text := [] }⟩

/-- An extracted result item, as assembled by `llm_extractor.py`
(`result` dict with keys type, value, context, page, position). -/
structure Item where
  type : List Char
  value : List Char
  context : List Char
  page : Nat
  position : ℚ × ℚ
deriving DecidableEq, Repr

/-- Centroid of a bbox: `((x0+x1)/2, (y0+y1)/2)`. -/
def centroid (b : BBox) : ℚ × ℚ := ((b.x0 + b.x1) / 2, (b.y0 + b.y1) / 2)

/-- `LLMExtractor._find_text_position`: scan the page's text blocks in
order; return the bbox centroid of the first block whose text contains
`search_text` as a substring, else the `[0, 0]` default. -/
def find_text_position (search_text : List Char) (page_data : PageData) : ℚ × ℚ :=
  match page_data.text_blocks.find? (fun tb => pyIn search_text tb.text) with
  | some tb => centroid tb.bbox
  | none => (0, 0)

/-- `LLMExtractor._get_context`: ±50 characters around `[start, «end»)` in
`text`, clipped to the string bounds and stripped. -/
def get_context (text : List Char) (start «end» : Nat) : List Char :=
  let context_start := start - 50
  let context_end := min text.length («end» + 50)
  pyStrip ((text.drop context_start).take (context_end - context_start))

/-- `LLMExtractor._get_type_name`: closed category-id → label mapping with
the raw id echoed back for unrecognized ids. -/
def get_type_name (query_type : List Char) : List Char :=
  if query_type = "stock_name".data then "Security Abbreviation".data
  else if query_type = "company_name".data then "Company Full Name".data
  else if query_type = "person_name".data then "Person Name".data
  else if query_type = "numbers".data then "Number".data
  else if query_type = "book_title".data then "Book Title Content".data
  else if query_type = "proposal".data then "Proposal/Motion Name".data
  else query_type

/-! ### Regex matchers

Each of the fixed patterns of `_extract_with_rules` is embedded as an
anchored matcher: given the text starting at a candidate position, it
returns `some (len, value)` when the pattern matches a prefix of length
`len` there (with `value` the reported match value), else `none`.  For
these particular patterns Python's leftmost/greedy backtracking semantics
reduce to maximal munch, as each matcher's comments justify. -/

/-- Length of the maximal digit run at the head. -/
def digRun (s : List Char) : Nat := (s.takeWhile isDig).length

/-- Anchored matcher for `\d+\.\d+%` (percentages).  `\d+` never benefits
from backtracking here: a shorter digit run leaves a digit where `\.`
or `%` is required. -/
def matchPercent (s : List Char) : Option (Nat × List Char) :=
  let d1 := digRun s
  if d1 = 0 then none else
  match s.drop d1 with
  | '.' :: t =>
    let d2 := digRun t
    if d2 = 0 then none else
    (match t.drop d2 with
     | '%' :: _ => some (d1 + 1 + d2 + 1, s.take (d1 + 1 + d2 + 1))
     | _ => none)
  | _ => none

/-- Length consumed by the greedy `(?:,\d{3})*` loop at the head: each
repetition is a comma followed by exactly three digits. -/
def grpRun : List Char → Nat
  | ',' :: a :: b :: c :: rest =>
      if isDig a && isDig b && isDig c then 4 + grpRun rest else 0
  | _ => 0

/-- Is the character one of the amount units 万 / 亿 / 元? -/
def isUnit (c : Char) : Bool := c = '万' || c = '亿' || c = '元'

/-- Anchored matcher for `\d+(?:,\d{3})*(?:\.\d+)?(?:万|亿|元)` (amounts).
Backtracking is again vacuous: after a shortened `\d+` or `(?:,\d{3})*`
the next character is a digit or a comma, never `.` or a unit, and when
the optional `\.\d+` group is declined with a `.` at hand the unit test
fails on the `.` itself. -/
def matchAmount (s : List Char) : Option (Nat × List Char) :=
  let d1 := digRun s
  if d1 = 0 then none else
  let g := grpRun (s.drop d1)
  match s.drop (d1 + g) with
  | '.' :: t =>
    let d2 := digRun t
    if d2 = 0 then none else
    (match t.drop d2 with
     | u :: _ =>
        if isUnit u then some (d1 + g + 1 + d2 + 1, s.take (d1 + g + 1 + d2 + 1))
        else none
     | [] => none)
  | u :: _ => if isUnit u then some (d1 + g + 1, s.take (d1 + g + 1)) else none
  | [] => none

/-- Anchored matcher for `\d{6}` (codes): exactly six digits, regardless
of what follows. -/
def matchCode (s : List Char) : Option (Nat × List Char) :=
  if (s.take 6).length = 6 && (s.take 6).all isDig
  then some (6, s.take 6) else none

/-- Anchored matcher for `《([^》]+)》` (book titles): the reported value is
capture group 1, the non-empty run strictly between the brackets. -/
def matchTitle (s : List Char) : Option (Nat × List Char) :=
  match s with
  | '《' :: t =>
    let inner := t.takeWhile (fun c => c ≠ '》')
    if inner.length = 0 then none else
    (match t.drop inner.length with
     | '》' :: _ => some (inner.length + 2, inner)
     | _ => none)
  | _ => none

/-- Fuel-indexed scan loop behind `finditer`.  Every step shortens the
text by at least one character while spending exactly one unit of fuel, so
fuel equal to the text length never runs out (a non-empty text always has
positive fuel in reach of `finditer` below). -/
def finditerAux (m : List Char → Option (Nat × List Char)) :
    Nat → List Char → Nat → List (Nat × Nat × List Char)
  | _, [], _ => []
  | 0, _ :: _, _ => []
  | fuel + 1, c :: rest, pos =>
    match m (c :: rest) with
    | some (len, v) =>
        (pos, len, v) :: finditerAux m fuel (rest.drop (len - 1)) (pos + len)
    | none => finditerAux m fuel rest (pos + 1)

/-- `re.finditer` over a text: scan left to right; at each position try the
anchored matcher; on a match emit `(start, length, value)` and resume
scanning right after the match (all patterns here have positive length). -/
def finditer (m : List Char → Option (Nat × List Char))
    (s : List Char) (pos : Nat) : List (Nat × Nat × List Char) :=
  finditerAux m s.length s pos

/-- Build the result dict appended for one rule match, as in
`_extract_with_rules` (type label, matched value, ±50-char context,
page number, located position). -/
def mkRuleItem (type_label : List Char) (text : List Char) (page_number : Nat)
    (page_data : PageData) (m : Nat × Nat × List Char) : Item :=
  { type := type_label
    value := m.2.2
    context := get_context text m.1 (m.1 + m.2.1)
    page := page_number
    position := find_text_position m.2.2 page_data }

/-- The three `numbers` pattern classes, in the order they appear in the
`patterns` list of `_extract_with_rules`. -/
def numbersPatterns : List (List Char → Option (Nat × List Char)) :=
  [matchPercent, matchAmount, matchCode]

/-- `LLMExtractor._extract_with_rules`: rule-based extraction.  Only
`book_title` and `numbers` have rule implementations; every other
category falls through to the empty result list. -/
def extract_with_rules (text : List Char) (query_type : List Char)
    (page_number : Nat) (page_data : PageData) : List Item :=
  if query_type = "book_title".data then
    (finditer matchTitle text 0).map
      (mkRuleItem "Book Title Content".data text page_number page_data)
  else if query_type = "numbers".data then
    numbersPatterns.flatMap (fun pat =>
      (finditer pat text 0).map
        (mkRuleItem "Number".data text page_number page_data))
  else []

/-! ### Oracle Extractor (`_extract_with_deepseek` / `_parse_llm_response`)

The network round-trip and JSON decoding are external effects; they are
embedded as an explicit outcome value describing what the code observes,
and the two functions are translated as pure functions of that outcome.
All exceptions in the source are caught locally, so both functions are
total and return plain lists — no error reaches the caller. -/

/-- One element of the JSON array decoded from the LLM's reply: either not
a JSON object, or an object with optional string fields `value` and
`context`. -/
inductive JsonElem where
  | nonDict : JsonElem
  | dict (value? : Option (List Char)) (context? : Option (List Char)) : JsonElem
deriving DecidableEq, Repr

/-- What the JSON-decoding stage of `_parse_llm_response` yields on the
reply text: `failure` when locating/parsing a JSON array raises (malformed
JSON, no `[...]` span and the whole text unparseable, or a non-iterable
result), else the decoded array elements. -/
inductive ParseOutcome where
  | failure : ParseOutcome
  | success (items : List JsonElem) : ParseOutcome
deriving DecidableEq, Repr

/-- What the HTTP stage of `_extract_with_deepseek` observes:
`netFailure` when `requests.post` raises (network failure / timeout),
else a response with a status code and — for the 200 path — either
`none` when decoding the API envelope (`response.json()` and the
`choices[0].message.content` lookups) raises, or the parse outcome of
the extracted content text. -/
inductive OracleOutcome where
  | netFailure : OracleOutcome
  | response (status : Nat) (envelope : Option ParseOutcome) : OracleOutcome
deriving DecidableEq, Repr

/-- `LLMExtractor._parse_llm_response`: on any JSON-decoding failure the
local `except` returns `[]`; otherwise each array element that is a dict
with a `value` key yields one result (with `context` defaulting to the
empty string), in array order. -/
def parse_llm_response (outcome : ParseOutcome) (query_type : List Char)
    (page_number : Nat) (page_data : PageData) : List Item :=
  match outcome with
  | .failure => []
  | .success items =>
      items.filterMap (fun e =>
        match e with
        | .dict (some v) c? =>
            some { type := get_type_name query_type
                   value := v
                   context := c?.getD []
                   page := page_number
                   position := find_text_position v page_data }
        | _ => none)

/-- `LLMExtractor._extract_with_deepseek`: a raised network error, a
non-200 status (turned into a raise) or a failing envelope decode are all
caught by the outer `except`, which falls back to `_extract_with_rules`;
a well-decoded 200 envelope hands its content to `_parse_llm_response`. -/
def extract_with_deepseek (outcome : OracleOutcome) (text : List Char)
    (query_type : List Char) (page_number : Nat) (page_data : PageData) : List Item :=
  match outcome with
  | .netFailure => extract_with_rules text query_type page_number page_data
  | .response status envelope =>
      if status = 200 then
        match envelope with
        | none => extract_with_rules text query_type page_number page_data
        | some po => parse_llm_response po query_type page_number page_data
      else extract_with_rules text query_type page_number page_data

/-- The outcomes on which the oracle call "fails at some stage" in the
sense of the specification: network failure, non-200 status, malformed
envelope JSON, or content in which no JSON array can be parsed. -/
def oracle_call_failed : OracleOutcome → Bool
  | .netFailure => true
  | .response _ none => true
  | .response status (some po) => status ≠ 200 || po = ParseOutcome.failure

/-- The outcomes on which the source actually raises into the outer
`except` of `_extract_with_deepseek` (and hence falls back to the rules):
network failure, non-200 status, or a failing envelope decode — but not a
content-level JSON parse failure, which `_parse_llm_response` swallows. -/
def transport_failed : OracleOutcome → Bool
  | .netFailure => true
  | .response _ none => true
  | .response status (some _) => status ≠ 200

/-! ### Extraction Orchestrator (`extract_information`) -/

/-- The type of the per-(text, category, page) extraction step
(`_extract_by_type`): the provider dispatch makes it one of the oracle
adapters or the rule engine, so the orchestrator is embedded generically
over it. -/
abbrev Extractor := List Char → List Char → Nat → PageData → List Item

/-- `LLMExtractor.extract_information`: loop over pages, skip pages whose
full text strips to empty, and for each requested query type in order
extend the accumulator with that type's extraction. -/
def extract_information (ext : Extractor) :
    List PageData → List (List Char) → List Item
  | [], _ => []
  | page_data :: rest, query_types =>
      (if pyStrip page_data.full_text = [] then []
       else query_types.flatMap (fun qt =>
         ext page_data.full_text qt page_data.page_number page_data))
      ++ extract_information ext rest query_types

/-! ### State-passing translation (for the frame property)

Python page dicts are mutable and are handed to every extractor, so the
"document is not mutated" claim is made meaningful by a state-passing
translation: each step returns the page data it was given alongside its
result, exactly as the source's statements (which contain no write to
`page_data` or `pages_data`) do. -/

/-- The type of a state-passing extraction step: result items together
with the page data as left behind by the step. -/
abbrev ExtractorSt := List Char → List Char → Nat → PageData → List Item × PageData

/-- State-passing translation of `_extract_with_rules`: the body only
reads `text` and `page_data`, so the page data is returned unchanged. -/
def extract_with_rules_st (text : List Char) (query_type : List Char)
    (page_number : Nat) (page_data : PageData) : List Item × PageData :=
  (extract_with_rules text query_type page_number page_data, page_data)

/-- State-passing translation of the inner query-type loop of
`extract_information`, threading the page data through the successive
extractor calls. -/
def query_loop_st (ext : ExtractorSt) (text : List Char) (page_number : Nat) :
    List (List Char) → PageData → List Item × PageData
  | [], page_data => ([], page_data)
  | qt :: qts, page_data =>
      let step := ext text qt page_number page_data
      let rest := query_loop_st ext text page_number qts step.2
      (step.1 ++ rest.1, rest.2)

/-- State-passing translation of `extract_information`: pages are read,
possibly skipped when blank, and handed to the inner loop; the returned
list of page data is what the document looks like afterwards. -/
def extract_information_st (ext : ExtractorSt) :
    List PageData → List (List Char) → List Item × List PageData
  | [], _ => ([], [])
  | page_data :: rest, query_types =>
      let step :=
        if pyStrip page_data.full_text = [] then ([], page_data)
        else query_loop_st ext page_data.full_text page_data.page_number
               query_types page_data
      let tail := extract_information_st ext rest query_types
      (step.1 ++ tail.1, step.2 :: tail.2)

/-! ### PDF processor (`pdf_processor.py`) -/

/-- `PDFProcessor.get_text_by_page`: empty string when no document is
loaded or the 1-based page number is out of range, else that page's full
text.  The page number is an `Int`, as any Python integer may be passed. -/
def get_text_by_page (pages_data : List PageData) (page_number : Int) : List Char :=
  if pages_data = [] ∨ page_number < 1 ∨ page_number > pages_data.length then []
  else (pages_data.getD (page_number - 1).toNat default).full_text

/-- One entry of the search-API result, from
`PDFProcessor.search_text_positions` (`result` dict). -/
structure SearchResult where
  page : Nat
  text : List Char
  position : ℚ × ℚ
  bbox : BBox
deriving DecidableEq, Repr

/-- The search-result entry built for a matching text block. -/
def mkSearchResult (page_number : Nat) (tb : TextBlock) : SearchResult :=
  { page := page_number
    text := tb.text
    position := centroid tb.bbox
    bbox := tb.bbox }

/-- `PDFProcessor.search_text_positions`: over all pages in order and all
text blocks in order, keep an entry for each block whose lowercased text
contains the lowercased search text. -/
def search_text_positions (pages_data : List PageData)
    (search_text : List Char) : List SearchResult :=
  pages_data.flatMap (fun page_data =>
    page_data.text_blocks.filterMap (fun tb =>
      if pyIn (pyLower search_text) (pyLower tb.text)
      then some (mkSearchResult page_data.page_number tb) else none))

/-! ### Specification-side definition for the `numbers` category -/

/-- Modelled from the spec: the `numbers` result described in §4.2 as the
"union of three independent pattern classes applied to the same text" —
the decimal-percentage matches, then the amount matches, then the
six-digit-code matches, one Candidate per match of each class, with no
deduplication. -/
def numbers_union_spec (text : List Char) (page_number : Nat)
    (page_data : PageData) : List Item :=
  (finditer matchPercent text 0).map
    (mkRuleItem "Number".data text page_number page_data)
  ++ (finditer matchAmount text 0).map
    (mkRuleItem "Number".data text page_number page_data)
  ++ (finditer matchCode text 0).map
    (mkRuleItem "Number".data text page_number page_data)

/-! ### Concrete fixtures -/

/-- The bbox of the single span of `pageRevenue`. -/
def bboxRevenue : BBox := { x0 := 10, y0 := 20, x1 := 110, y1 := 40 }

/-- The all-zero bbox of the single span of `pageOrigin`. -/
def bboxOrigin : BBox := { x0 := 0, y0 := 0, x1 := 0, y1 := 0 }

/-- A one-span page used by the round-trip and witness statements. -/
def pageRevenue : PageData :=
  { page_number := 1, page_width := 612, page_height := 792
    text_blocks := [{ text := "Revenue grew 15.5% this year".data
                      bbox := bboxRevenue
                      font_size := 10, font_name := "Helv".data, flags := 0 }]
    full_text := "Revenue grew 15.5% this year".data }

/-- A second page, with a larger page number, for ordering witnesses. -/
def pageTwo : PageData :=
  { page_number := 2, page_width := 612, page_height := 792
    text_blocks := [{ text := "code 123456".data
                      bbox := { x0 := 1, y0 := 2, x1 := 3, y1 := 4 }
                      font_size := 10, font_name := "Helv".data, flags := 0 }]
    full_text := "code 123456".data }

/-- A page whose only span has a bbox centered exactly at the origin. -/
def pageOrigin : PageData :=
  { page_number := 1, page_width := 612, page_height := 792
    text_blocks := [{ text := "a".data
                      bbox := bboxOrigin
                      font_size := 10, font_name := "Helv".data, flags := 0 }]
    full_text := "a".data }

/-- A three-span page on which the searched value occurs in the second and
third spans but not the first. -/
def pageMulti : PageData :=
  { page_number := 1, page_width := 612, page_height := 792
    text_blocks :=
      [{ text := "abc".data
         bbox := { x0 := 1, y0 := 1, x1 := 2, y1 := 2 }
         font_size := 10, font_name := "Helv".data, flags := 0 },
       { text := "see 15.5% here".data
         bbox := { x0 := 3, y0 := 4, x1 := 5, y1 := 6 }
         font_size := 10, font_name := "Helv".data, flags := 0 },
       { text := "15.5% again".data
         bbox := { x0 := 7, y0 := 8, x1 := 9, y1 := 10 }
         font_size := 10, font_name := "Helv".data, flags := 0 }]
    full_text := "abc see 15.5% here 15.5% again".data }

/-! ### Helper lemmas -/

/-- The empty string is a substring of every string. -/
theorem pyIn_nil (l : List Char) : pyIn [] l = true := by
  cases l with
  | nil => rfl
  | cons c t => simp [pyIn, List.isPrefixOf]

/-- `find?` returns the element at index `i` when it satisfies the
predicate and nothing before it does. -/
theorem find?_eq_get_of_first {α : Type} (p : α → Bool) (l : List α) (i : Nat)
    (hi : i < l.length) (hp : p (l.get ⟨i, hi⟩) = true)
    (hbefore : ∀ x ∈ l.take i, p x = false) :
    l.find? p = some (l.get ⟨i, hi⟩) := by
  induction l generalizing i with
  | nil => simp at hi
  | cons a t ih =>
    cases i with
    | zero =>
        simp only [List.get] at hp
        simp [List.find?_cons_of_pos, hp]
    | succ n =>
        have ha : p a = false := by
          apply hbefore
          simp [List.take_succ_cons]
        rw [List.find?_cons_of_neg _ (by simp [ha])]
        exact ih n (by simpa using hi) hp
          (fun x hx => hbefore x (by simp [List.take_succ_cons, hx]))

/-- `extract_information` unfolded to its flat-map normal form. -/
theorem extract_information_eq_flatMap (ext : Extractor)
    (pages : List PageData) (qts : List (List Char)) :
    extract_information ext pages qts =
      pages.flatMap (fun pd =>
        if pyStrip pd.full_text = [] then []
        else qts.flatMap (fun qt => ext pd.full_text qt pd.page_number pd)) := by
  induction pages with
  | nil => rfl
  | cons pd rest ih => simp [extract_information, ih]

/-- Every item the orchestrator emits carries the page number of one of
the input pages, provided the extractor stamps its page argument. -/
theorem mem_extract_information {ext : Extractor}
    (hext : ∀ t q n pd it, it ∈ ext t q n pd → it.page = n)
    {pages : List PageData} {qts : List (List Char)} {it : Item}
    (h : it ∈ extract_information ext pages qts) :
    ∃ pd ∈ pages, it.page = pd.page_number := by
  induction pages with
  | nil => simp [extract_information] at h
  | cons pd rest ih =>
    rw [extract_information] at h
    rcases List.mem_append.mp h with h1 | h2
    · refine ⟨pd, List.mem_cons_self _ _, ?_⟩
      split at h1
      · simp at h1
      · rcases List.mem_flatMap.mp h1 with ⟨qt, _, hit⟩
        exact hext _ _ _ _ _ hit
    · rcases ih h2 with ⟨pd', hpd', hpage⟩
      exact ⟨pd', List.mem_cons_of_mem _ hpd', hpage⟩

/-- A list all of whose elements are equal is pairwise `≤`. -/
theorem pairwise_le_of_const {l : List Nat} {c : Nat}
    (h : ∀ x ∈ l, x = c) : l.Pairwise (· ≤ ·) := by
  induction l with
  | nil => exact List.Pairwise.nil
  | cons a t ih =>
    refine List.Pairwise.cons (fun b hb => ?_) (ih fun x hx => h x (List.mem_cons_of_mem _ hx))
    rw [h a (List.mem_cons_self _ _), h b (List.mem_cons_of_mem _ hb)]

/-- The state-passing query-type loop leaves the page data unchanged when
every extractor step does. -/
theorem query_loop_st_frame {ext : ExtractorSt}
    (h : ∀ t q n pd, (ext t q n pd).2 = pd)
    (text : List Char) (page_number : Nat) (qts : List (List Char))
    (pd : PageData) :
    (query_loop_st ext text page_number qts pd).2 = pd := by
  induction qts generalizing pd with
  | nil => rfl
  | cons qt rest ih => simp [query_loop_st, h, ih]

/-- A trivial extractor that stamps its page-number argument on a single
item; used to instantiate orchestrator-level statements. -/
def stampExtractor : Extractor := fun _ _ n _ =>
  [{ type := [], value := [], context := [], page := n, position := (0, 0) }]

/-- The centroid of the `pageRevenue` span's bbox, evaluated. -/
theorem centroid_bboxRevenue : centroid bboxRevenue = (60, 30) := by
  norm_num [centroid, bboxRevenue]

/-- Every span of `pageRevenue` has a centroid away from the origin. -/
theorem pageRevenue_centroids_ne :
    ∀ tb ∈ pageRevenue.text_blocks, centroid tb.bbox ≠ (0, 0) := by
  intro tb htb
  simp only [pageRevenue, List.mem_singleton] at htb
  subst htb
  show centroid bboxRevenue ≠ (0, 0)
  rw [centroid_bboxRevenue]
  simp [Prod.ext_iff]

/-! ### Claims -/

/-- Claim C1 (corrected): when the oracle call fails, the result is the
rule extraction exactly for transport-level failures (network failure,
non-200 status, undecodable response envelope); a 200 response whose
content has no parseable JSON array instead yields the empty list.  In
every case a plain list is returned, so no error reaches the caller. -/
theorem oracle_failure_result (o : OracleOutcome) (text qt : List Char)
    (pn : Nat) (pd : PageData) (h : oracle_call_failed o = true) :
    extract_with_deepseek o text qt pn pd =
      if transport_failed o then extract_with_rules text qt pn pd else [] := by
  cases o with
  | netFailure => rfl
  | response status env =>
    cases env with
    | none =>
        simp only [extract_with_deepseek, transport_failed, if_true]
        split <;> rfl
    | some po =>
        by_cases hs : status = 200
        · subst hs
          cases po with
          | failure => rfl
          | success items => simp [oracle_call_failed] at h
        · simp [extract_with_deepseek, transport_failed, hs]

/-- Witness for C1 at a concrete failing outcome and page. -/
theorem oracle_failure_result_witness :
    extract_with_deepseek OracleOutcome.netFailure
        "Revenue grew 15.5% this year".data "numbers".data 1 pageRevenue =
      if transport_failed OracleOutcome.netFailure
      then extract_with_rules "Revenue grew 15.5% this year".data
             "numbers".data 1 pageRevenue
      else [] :=
  oracle_failure_result _ _ _ _ _ rfl

/-- Counterexample to C1 as stated: a 200 response whose content fails
JSON-array parsing is one of the claim's failure stages, yet the result is
the empty list while the rule extraction on the same page is not empty. -/
theorem oracle_degrade_counterexample :
    oracle_call_failed (OracleOutcome.response 200 (some ParseOutcome.failure)) = true ∧
    extract_with_deepseek (OracleOutcome.response 200 (some ParseOutcome.failure))
        "Revenue grew 15.5% this year".data "numbers".data 1 pageRevenue = [] ∧
    extract_with_rules "Revenue grew 15.5% this year".data
        "numbers".data 1 pageRevenue ≠ [] := by
  refine ⟨rfl, rfl, fun h => ?_⟩
  have hlen : (extract_with_rules "Revenue grew 15.5% this year".data
      "numbers".data 1 pageRevenue).length = 1 := rfl
  rw [h] at hlen
  cases hlen

/-- Claim C2 (corrected): when no span on the page contains the value,
the position is (0, 0) — unconditionally; and conversely, provided no
span's bbox centroid is itself the origin, a (0, 0) position implies no
span contains the value.  A span whose centroid is exactly (0, 0) breaks
the unconditional if-and-only-if as stated. -/
theorem position_sentinel_iff (v : List Char) (pd : PageData) :
    ((∀ tb ∈ pd.text_blocks, pyIn v tb.text = false) →
      find_text_position v pd = (0, 0)) ∧
    ((∀ tb ∈ pd.text_blocks, centroid tb.bbox ≠ (0, 0)) →
      find_text_position v pd = (0, 0) →
      ∀ tb ∈ pd.text_blocks, pyIn v tb.text = false) := by
  constructor
  · intro hall
    have hf : pd.text_blocks.find? (fun tb => pyIn v tb.text) = none :=
      List.find?_eq_none.mpr (fun tb htb => by simp [hall tb htb])
    unfold find_text_position
    rw [hf]
  · intro hcent h0
    cases hf : pd.text_blocks.find? (fun tb => pyIn v tb.text) with
    | none =>
        intro tb htb
        have := List.find?_eq_none.mp hf tb htb
        simpa using this
    | some tb =>
        have hmem := List.mem_of_find?_eq_some hf
        unfold find_text_position at h0
        rw [hf] at h0
        exact absurd h0 (hcent tb hmem)

/-- Witness for C2 (amended) on a page whose only span has a nonzero
centroid and a value occurring in no span: the forward direction gives
the sentinel, and the guarded converse recovers non-containment. -/
theorem position_sentinel_iff_witness :
    find_text_position "xyz".data pageRevenue = (0, 0) ∧
    (∀ tb ∈ pageRevenue.text_blocks, pyIn "xyz".data tb.text = false) := by
  have h1 := (position_sentinel_iff "xyz".data pageRevenue).1 (by decide)
  have h2 := (position_sentinel_iff "xyz".data pageRevenue).2
    pageRevenue_centroids_ne h1
  exact ⟨h1, h2⟩

/-- Counterexample to C2 as stated: on a page whose single span has bbox
(0, 0, 0, 0), the value "a" is contained in a span yet the reported
position is exactly (0, 0). -/
theorem position_sentinel_counterexample :
    find_text_position "a".data pageOrigin = (0, 0) ∧
    pageOrigin.text_blocks.any (fun tb => pyIn "a".data tb.text) = true := by
  constructor
  · show centroid bboxOrigin = (0, 0)
    norm_num [centroid, bboxOrigin]
  · decide

/-- Claim C3 (confirmed): when some span on the page contains the value
(case-sensitively), the locator returns the bbox centroid of the first
such span in span order. -/
theorem locator_first_match (v : List Char) (pd : PageData) (i : Nat)
    (hi : i < pd.text_blocks.length)
    (hp : pyIn v (pd.text_blocks.get ⟨i, hi⟩).text = true)
    (hbefore : ∀ tb ∈ pd.text_blocks.take i, pyIn v tb.text = false) :
    find_text_position v pd = centroid (pd.text_blocks.get ⟨i, hi⟩).bbox := by
  unfold find_text_position
  rw [find?_eq_get_of_first (fun tb => pyIn v tb.text) _ i hi hp hbefore]

/-- Witness for C3 on a page where the value first occurs in the second of
three spans. -/
theorem locator_first_match_witness :
    find_text_position "15.5%".data pageMulti =
      centroid (pageMulti.text_blocks.get ⟨1, by decide⟩).bbox :=
  locator_first_match _ _ 1 (by decide) (by decide) (by decide)

/-- Claim C4 (confirmed): on a page with the single span "Revenue grew
15.5% this year", rule extraction for `numbers` yields exactly one item
with value "15.5%", and the locator returns that span's centroid
(60, 30), not the (0, 0) sentinel. -/
theorem numbers_roundtrip :
    extract_with_rules "Revenue grew 15.5% this year".data "numbers".data
        1 pageRevenue =
      [{ type := "Number".data, value := "15.5%".data,
         context := "Revenue grew 15.5% this year".data, page := 1,
         position := centroid bboxRevenue }] ∧
    find_text_position "15.5%".data pageRevenue = centroid bboxRevenue ∧
    centroid bboxRevenue ≠ (0, 0) := by
  refine ⟨rfl, rfl, ?_⟩
  rw [centroid_bboxRevenue]
  simp [Prod.ext_iff]

/-- Claim C5 (confirmed): `numbers` rule extraction is exactly the union
of the three pattern classes in order — percentages, then amounts, then
six-digit codes — one item per match and no deduplication, so a substring
matched by two classes appears twice, as "123456元" shows. -/
theorem numbers_rules_union :
    (∀ (text : List Char) (pn : Nat) (pd : PageData),
        extract_with_rules text "numbers".data pn pd =
          numbers_union_spec text pn pd) ∧
    (extract_with_rules "123456元".data "numbers".data 1 pageRevenue).map
        (fun it => it.value) = ["123456元".data, "123456".data] := by
  constructor
  · intro text pn pd
    unfold extract_with_rules
    rw [if_neg (by decide), if_pos rfl]
    simp [numbersPatterns, numbers_union_spec, List.append_assoc]
  · decide

/-- Claim C6 (confirmed): the rule extractor returns the empty list for
each of the four categories without a rule implementation. -/
theorem rules_empty_for_oracle_only (text : List Char) (qt : List Char)
    (pn : Nat) (pd : PageData)
    (h : qt = "stock_name".data ∨ qt = "company_name".data ∨
         qt = "person_name".data ∨ qt = "proposal".data) :
    extract_with_rules text qt pn pd = [] := by
  rcases h with h | h | h | h <;>
    (subst h
     unfold extract_with_rules
     rw [if_neg (by decide), if_neg (by decide)])

/-- Witness for C6 at the `proposal` category on a page full of numeric
matches. -/
theorem rules_empty_for_oracle_only_witness :
    extract_with_rules "code 123456 and 15.5%".data "proposal".data
      1 pageRevenue = [] :=
  rules_empty_for_oracle_only _ _ _ _ (Or.inr (Or.inr (Or.inr rfl)))

/-- Claim C7 (confirmed): the orchestrator output is the in-order
concatenation over pages, then requested categories, then candidates —
no sorting, no dedup — and its page numbers are nondecreasing whenever
the input page numbers are strictly increasing, so all items of an
earlier page precede all items of a later page. -/
theorem extraction_order (ext : Extractor) (pages : List PageData)
    (qts : List (List Char))
    (hext : ∀ t q n pd it, it ∈ ext t q n pd → it.page = n)
    (hpages : pages.Pairwise (fun a b => a.page_number < b.page_number)) :
    extract_information ext pages qts =
      pages.flatMap (fun pd =>
        if pyStrip pd.full_text = [] then []
        else qts.flatMap (fun qt => ext pd.full_text qt pd.page_number pd)) ∧
    ((extract_information ext pages qts).map (fun it => it.page)).Pairwise
      (· ≤ ·) := by
  refine ⟨extract_information_eq_flatMap ext pages qts, ?_⟩
  induction hpages with
  | nil => simp [extract_information]
  | cons hrel _ ih =>
    rename_i pd rest _
    rw [extract_information, List.map_append, List.pairwise_append]
    refine ⟨?_, ih, ?_⟩
    · apply pairwise_le_of_const (c := pd.page_number)
      intro x hx
      rcases List.mem_map.mp hx with ⟨it, hit, rfl⟩
      split at hit
      · simp at hit
      · rcases List.mem_flatMap.mp hit with ⟨qt, _, h2⟩
        exact hext _ _ _ _ _ h2
    · intro a ha b hb
      rcases List.mem_map.mp ha with ⟨it, hit, rfl⟩
      rcases List.mem_map.mp hb with ⟨it2, hit2, rfl⟩
      have h1 : it.page = pd.page_number := by
        split at hit
        · simp at hit
        · rcases List.mem_flatMap.mp hit with ⟨qt, _, h2⟩
          exact hext _ _ _ _ _ h2
      rcases mem_extract_information hext hit2 with ⟨pd', hpd', hpage⟩
      have h3 := hrel pd' hpd'
      omega

/-- Witness for C7 on two concrete pages with page numbers 1 and 2. -/
theorem extraction_order_witness :
    (extract_information stampExtractor [pageRevenue, pageTwo]
        ["numbers".data] =
      [pageRevenue, pageTwo].flatMap (fun pd =>
        if pyStrip pd.full_text = [] then []
        else ["numbers".data].flatMap
          (fun qt => stampExtractor pd.full_text qt pd.page_number pd))) ∧
    ((extract_information stampExtractor [pageRevenue, pageTwo]
        ["numbers".data]).map (fun it => it.page)).Pairwise (· ≤ ·) :=
  extraction_order stampExtractor [pageRevenue, pageTwo] ["numbers".data]
    (by intro t q n pd it h
        simp only [stampExtractor, List.mem_singleton] at h
        subst h
        rfl)
    (by decide)

/-- Claim C8 (confirmed): the pipeline leaves the document unchanged —
in the state-passing translation, the page data coming out of the
orchestrator is the page data that went in, for any extractor that (like
all extractors in the source, which never write to the page dicts)
returns its page data as received. -/
theorem document_frame (ext_st : ExtractorSt) (pages : List PageData)
    (qts : List (List Char))
    (h : ∀ t q n pd, (ext_st t q n pd).2 = pd) :
    (extract_information_st ext_st pages qts).2 = pages := by
  induction pages with
  | nil => rfl
  | cons pd rest ih =>
    have hstep : (if pyStrip pd.full_text = [] then (([] : List Item), pd)
        else query_loop_st ext_st pd.full_text pd.page_number qts pd).2
          = pd := by
      split
      · rfl
      · exact query_loop_st_frame h _ _ _ _
    simp [extract_information_st, hstep, ih]

/-- Witness for C8 with the rule extractor on two concrete pages. -/
theorem document_frame_witness :
    (extract_information_st extract_with_rules_st [pageRevenue, pageTwo]
        ["numbers".data, "book_title".data]).2 = [pageRevenue, pageTwo] :=
  document_frame _ _ _ (fun _ _ _ _ => rfl)

/-- Claim C9 (confirmed): `get_text_by_page` returns the empty string for
any page number below 1 or above the page count — and, since an empty
page list satisfies the same guard for every integer, also whenever no
document has been loaded. -/
theorem get_text_out_of_range (pages : List PageData) (pn : Int)
    (h : pn < 1 ∨ pn > (pages.length : Int)) :
    get_text_by_page pages pn = [] := by
  unfold get_text_by_page
  rw [if_pos (Or.inr h)]

/-- Witness for C9 at page number 5 of a one-page document. -/
theorem get_text_out_of_range_witness :
    get_text_by_page [pageRevenue] 5 = [] :=
  get_text_out_of_range _ _ (by decide)

/-- Claim C10 (confirmed): searching for the empty string returns one
entry per span of every page, in page order then span render order. -/
theorem search_empty_returns_all (pages : List PageData) :
    search_text_positions pages [] =
      pages.flatMap (fun pd =>
        pd.text_blocks.map (mkSearchResult pd.page_number)) := by
  unfold search_text_positions
  induction pages with
  | nil => rfl
  | cons pd rest ih =>
    rw [List.flatMap_cons, List.flatMap_cons, ih]
    congr 1
    induction pd.text_blocks with
    | nil => rfl
    | cons tb tbs ih2 =>
      rw [List.map_cons, ← ih2]
      exact List.filterMap_cons_some (by simp [pyIn_nil, pyLower])
